import Mathlib

/-!
Verification of the scoring engine of the SEO-analyzer repository.

The definitions below are shallow embeddings of the scoring functions in
`src/services/seoAnalyzer.ts`, `src/services/linkAnalyzer.ts` and the
unnamed revision files (`part_002`, `part_003`, `part_004`).  JavaScript
numbers are modelled as `Nat`/`Int`/`Rat` (all scoring arithmetic in the
source is exact on these values), `Math.round` as floor of `x + 1/2`,
string truthiness as non-emptiness, and fallible control flow as `Except`.
-/

namespace SeoAnalyzer

/-- Categorical rating bucket used by every scoring function
(`'poor' | 'fair' | 'good' | 'excellent'`). -/
inductive Rating where
  | poor
  | fair
  | good
  | excellent
deriving DecidableEq, Repr

/-- Numeric rank of a rating, for stating monotonicity (poor < fair < good < excellent). -/
def ratingRank : Rating → Nat
  | Rating.poor => 0
  | Rating.fair => 1
  | Rating.good => 2
  | Rating.excellent => 3

/-- JavaScript `Math.round`: round half away from zero; for the non-negative
scores of this program this is `⌊x + 1/2⌋`. -/
def jsRound (q : ℚ) : ℤ := ⌊q + 1 / 2⌋

/-- JavaScript truthiness of a `string | null` value: `null` and `""` are falsy. -/
def jsTruthy : Option String → Bool
  | none => false
  | some s => !s.isEmpty

/-- The 4-tier rating expression
`score >= 80 ? 'excellent' : score >= 60 ? 'good' : score >= 40 ? 'fair' : 'poor'`
(seoAnalyzer.ts, lines 250, 311, 367). -/
def rating4 (score : ℚ) : Rating :=
  if score ≥ 80 then Rating.excellent
  else if score ≥ 60 then Rating.good
  else if score ≥ 40 then Rating.fair
  else Rating.poor

/-- The 3-tier rating expression of the part_004 performance score
`score < 50 ? 'poor' : score < 80 ? 'fair' : 'good'` (part_004, line 57). -/
def rating3 (score : ℤ) : Rating :=
  if score < 50 then Rating.poor
  else if score < 80 then Rating.fair
  else Rating.good

/-- The 3-tier rating expression of the part_003 performance score
`score >= 80 ? 'good' : score >= 60 ? 'fair' : 'poor'`. -/
def rating3Desc (score : ℤ) : Rating :=
  if score ≥ 80 then Rating.good
  else if score ≥ 60 then Rating.fair
  else Rating.poor

/-- Result triple `{score, rating, suggestions}` returned by the scoring functions. -/
structure ScoreResult where
  score : ℤ
  rating : Rating
  suggestions : List String
deriving DecidableEq, Repr

/-! ## On-page SEO score (`calculateSEOScore`, seoAnalyzer.ts lines 255-314) -/

/-- Open Graph tags record (`meta.ogTags`); each entry is `string | null`. -/
structure OgTags where
  title : Option String
  description : Option String
  image : Option String
  url : Option String
deriving DecidableEq, Repr

/-- The fields of the extracted `meta` record consumed by `calculateSEOScore`. -/
structure MetaTags where
  hasViewport : Bool
  hasCharset : Bool
  keywords : Option String
  ogTags : OgTags
deriving DecidableEq, Repr

/-- Extracted heading text lists (`headings.h1/h2/h3`). -/
structure HeadingsData where
  h1 : List String
  h2 : List String
  h3 : List String
deriving DecidableEq, Repr

/-- Extracted image statistics (`images.total`, `images.withoutAlt`). -/
structure ImagesData where
  total : Nat
  withoutAlt : Nat
deriving DecidableEq, Repr

/-- The argument record of `calculateSEOScore`. -/
structure SEOData where
  title : String
  description : String
  headings : HeadingsData
  meta : MetaTags
  images : ImagesData
deriving DecidableEq, Repr

/-- Title block of `calculateSEOScore` (lines 259-270): points added and
suggestions pushed.  `if (data.title)` is string truthiness, i.e. non-empty. -/
def titleContribution (title : String) : ℚ × List String :=
  if !title.isEmpty then
    if 30 ≤ title.length ∧ title.length ≤ 60 then (20, [])
    else (10, [if title.length < 30 then "Title is too short" else "Title is too long"])
  else (0, ["Missing title tag"])

/-- Description block of `calculateSEOScore` (lines 272-283). -/
def descriptionContribution (description : String) : ℚ × List String :=
  if !description.isEmpty then
    if 120 ≤ description.length ∧ description.length ≤ 160 then (20, [])
    else (10, [if description.length < 120 then "Meta description is too short"
               else "Meta description is too long"])
  else (0, ["Missing meta description"])

/-- Headings block of `calculateSEOScore` (lines 285-292): 10 points for a
single H1 (else a suggestion), +5 for any H2, +5 for any H3. -/
def headingsContribution (h : HeadingsData) : ℚ × List String :=
  ((if h.h1.length = 1 then (10 : ℚ) else 0) +
     (if 0 < h.h2.length then 5 else 0) + (if 0 < h.h3.length then 5 else 0),
   if h.h1.length = 1 then []
   else [if h.h1.length = 0 then "Missing H1 tag" else "Multiple H1 tags found"])

/-- Images block of `calculateSEOScore` (lines 294-301): proportional alt-text
credit `(total - withoutAlt) / total * 20` when any images exist. -/
def imagesContribution (i : ImagesData) : ℚ × List String :=
  if 0 < i.total then
    (((i.total : ℚ) - (i.withoutAlt : ℚ)) / (i.total : ℚ) * 20,
     if 0 < i.withoutAlt then [toString i.withoutAlt ++ " images missing alt text"] else [])
  else (0, [])

/-- `Object.values(data.meta.ogTags).some(val => val !== null)` (line 307):
note this tests against `null`, not truthiness. -/
def ogAny (og : OgTags) : Bool :=
  og.title.isSome || og.description.isSome || og.image.isSome || og.url.isSome

/-- Meta-tag block of `calculateSEOScore` (lines 303-307): four 5-point checks,
none of which pushes a suggestion. -/
def metaPoints (m : MetaTags) : ℚ :=
  (if m.hasViewport then (5 : ℚ) else 0) + (if m.hasCharset then 5 else 0) +
    (if jsTruthy m.keywords then 5 else 0) + (if ogAny m.ogTags then 5 else 0)

/-- The accumulated `score` value of `calculateSEOScore` before `Math.round`. -/
def seoRawScore (d : SEOData) : ℚ :=
  (titleContribution d.title).1 + (descriptionContribution d.description).1 +
    (headingsContribution d.headings).1 + (imagesContribution d.images).1 +
    metaPoints d.meta

/-- `calculateSEOScore` (seoAnalyzer.ts lines 255-314): the score is
`Math.round` of the accumulated points, the rating is taken on the unrounded
score, and suggestions are pushed in source order (the meta block pushes none). -/
def calculateSEOScore (d : SEOData) : ScoreResult :=
  { score := jsRound (seoRawScore d)
    rating := rating4 (seoRawScore d)
    suggestions := (titleContribution d.title).2 ++ (descriptionContribution d.description).2 ++
      (headingsContribution d.headings).2 ++ (imagesContribution d.images).2 }

/-! ## Content quality score (`calculateContentScore`, seoAnalyzer.ts lines 316-369) -/

/-- Points contributed by one `if (cond) score += pts` check. -/
def scoreCheck (c : Prop) [Decidable c] (pts : ℤ) : ℤ := if c then pts else 0

/-- Suggestion pushed by the `else suggestions.push(msg)` arm of one check. -/
def suggCheck (c : Prop) [Decidable c] (msg : String) : List String :=
  if c then [] else [msg]

/-- The fields of `contentAnalysis` consumed by `calculateContentScore`
(seoAnalyzer.ts lines 107-124; `textToHtmlRatio` is a percentage compared
against 10). -/
structure ContentAnalysis where
  wordCount : Nat
  textToHtmlRatioPercent : ℚ
  hasSchema : Bool
  hasCanonical : Bool
  hasSitemap : Bool
  hasSSL : Bool
  mobileResponsive : Bool
  hasFavicon : Bool
  hasCustom404 : Bool
deriving DecidableEq, Repr

/-- The accessibility predicate record (seoAnalyzer.ts lines 160-166). -/
structure AccessibilityFlags where
  hasAriaLabels : Bool
  hasAltText : Bool
  hasSkipLinks : Bool
  hasLangAttribute : Bool
  hasAccessibleForms : Bool
deriving DecidableEq, Repr

/-- The accumulated `score` of `calculateContentScore` before `Math.min(100, ...)`:
fourteen checks, in source order, worth 10+10+10+5+5 + 10+10+5+5 + 6*5 = 100. -/
def contentRawScore (c : ContentAnalysis) (a : AccessibilityFlags) : ℤ :=
  scoreCheck (300 < c.wordCount) 10 + scoreCheck (10 < c.textToHtmlRatioPercent) 10 +
    scoreCheck (c.hasSchema = true) 10 + scoreCheck (c.hasCanonical = true) 5 +
    scoreCheck (c.hasSitemap = true) 5 + scoreCheck (c.hasSSL = true) 10 +
    scoreCheck (c.mobileResponsive = true) 10 + scoreCheck (c.hasFavicon = true) 5 +
    scoreCheck (c.hasCustom404 = true) 5 + scoreCheck (a.hasAriaLabels = true) 6 +
    scoreCheck (a.hasAltText = true) 6 + scoreCheck (a.hasSkipLinks = true) 6 +
    scoreCheck (a.hasLangAttribute = true) 6 + scoreCheck (a.hasAccessibleForms = true) 6

/-- The suggestions pushed by `calculateContentScore`, in source order. -/
def contentSuggestions (c : ContentAnalysis) (a : AccessibilityFlags) : List String :=
  suggCheck (300 < c.wordCount) "Add more content to improve engagement" ++
    suggCheck (10 < c.textToHtmlRatioPercent) "Improve text to HTML ratio" ++
    suggCheck (c.hasSchema = true) "Add schema markup for better search engine understanding" ++
    suggCheck (c.hasCanonical = true) "Add canonical tag to prevent duplicate content issues" ++
    suggCheck (c.hasSitemap = true) "Add XML sitemap for better search engine crawling" ++
    suggCheck (c.hasSSL = true) "Enable HTTPS for better security" ++
    suggCheck (c.mobileResponsive = true) "Make website mobile-friendly" ++
    suggCheck (c.hasFavicon = true) "Add favicon for better brand recognition" ++
    suggCheck (c.hasCustom404 = true) "Create custom 404 page for better user experience" ++
    suggCheck (a.hasAriaLabels = true) "Add ARIA labels for better accessibility" ++
    suggCheck (a.hasAltText = true) "Add alt text to all images" ++
    suggCheck (a.hasSkipLinks = true) "Add skip links for better navigation" ++
    suggCheck (a.hasLangAttribute = true) "Add language attribute to HTML tag" ++
    suggCheck (a.hasAccessibleForms = true) "Make forms more accessible by adding proper labels"

/-- `calculateContentScore` (seoAnalyzer.ts lines 316-369): the returned score
is `Math.min(100, score)`; the rating is computed from the unclamped score. -/
def calculateContentScore (c : ContentAnalysis) (a : AccessibilityFlags) : ScoreResult :=
  { score := min 100 (contentRawScore c a)
    rating := rating4 ((contentRawScore c a : ℤ) : ℚ)
    suggestions := contentSuggestions c a }

/-! ## Additive performance score (`calculatePerformanceScore`,
seoAnalyzer.ts lines 208-253; the same function appears in part_003 callers) -/

/-- HTML-size component (lines 216-227): 40/30/20/10 points by size bracket,
with a suggestion in the two worst brackets. -/
def sizeScoring (htmlSize : Nat) : ℤ × List String :=
  if htmlSize < 100 * 1024 then (40, [])
  else if htmlSize < 200 * 1024 then (30, [])
  else if htmlSize < 500 * 1024 then
    (20, ["Consider optimizing HTML size for better performance"])
  else (10, ["HTML size is too large, optimize your code"])

/-- Load-time component (lines 229-240): 40/30/20/10 points by latency bracket,
with a suggestion in the two worst brackets. -/
def loadTimeScoring (loadTime : Nat) : ℤ × List String :=
  if loadTime < 1000 then (40, [])
  else if loadTime < 2000 then (30, [])
  else if loadTime < 3000 then (20, ["Consider optimizing page load time"])
  else (10, ["Page load time is too high"])

/-- The six HTML-structure booleans (seoAnalyzer.ts lines 85-92). -/
structure StructureFlags where
  hasDoctype : Bool
  hasHtmlLang : Bool
  hasMainTag : Bool
  hasHeaderTag : Bool
  hasFooterTag : Bool
  hasNavTag : Bool
deriving DecidableEq, Repr

/-- `Object.values(structure).filter(Boolean).length`. -/
def structureCount (fl : StructureFlags) : Nat :=
  (if fl.hasDoctype then 1 else 0) + (if fl.hasHtmlLang then 1 else 0) +
    (if fl.hasMainTag then 1 else 0) + (if fl.hasHeaderTag then 1 else 0) +
    (if fl.hasFooterTag then 1 else 0) + (if fl.hasNavTag then 1 else 0)

/-- The additive 4-tier `calculatePerformanceScore` of seoAnalyzer.ts
(lines 208-253): size + load-time + `min(20, structureCount * 3)`; the
structure component pushes no suggestion. -/
def calculatePerformanceScoreV1 (htmlSize loadTime : Nat) (fl : StructureFlags) : ScoreResult :=
  { score := (sizeScoring htmlSize).1 + (loadTimeScoring loadTime).1 +
      min 20 ((structureCount fl : ℤ) * 3)
    rating := rating4 (((sizeScoring htmlSize).1 + (loadTimeScoring loadTime).1 +
      min 20 ((structureCount fl : ℤ) * 3) : ℤ) : ℚ)
    suggestions := (sizeScoring htmlSize).2 ++ (loadTimeScoring loadTime).2 }

/-! ## Subtractive performance scores (part_004 lines 12-60, part_003 lines 223-278) -/

/-- The metrics record consumed by the subtractive performance scorers. -/
structure PerfMetrics where
  htmlSize : Nat
  loadTime : Nat
  cssFiles : Nat
  jsFiles : Nat
  inlineStyles : Nat
  inlineScripts : Nat
deriving DecidableEq, Repr

/-- Result record `{score, rating, issues}` of the subtractive scorers. -/
structure PerfScore where
  score : ℤ
  rating : Rating
  issues : List String
deriving DecidableEq, Repr

/-- The subtractive 3-tier `calculatePerformanceScore` of part_004
(lines 12-60): starts at 100, subtracts capped penalties, clamps to [0,100],
and rates with `score < 50 ? 'poor' : score < 80 ? 'fair' : 'good'`. -/
def calculatePerformanceScoreV2 (m : PerfMetrics) : PerfScore :=
  let s1 : ℤ := 100 -
    (if 100000 < m.htmlSize then ((min 20 (m.htmlSize / 100000) : Nat) : ℤ) else 0)
  let s2 : ℤ := s1 -
    (if 2000 < m.loadTime then ((min 30 (m.loadTime / 1000 * 10) : Nat) : ℤ) else 0)
  let s3 : ℤ := s2 -
    (if 15 < m.cssFiles + m.jsFiles then ((min 15 (m.cssFiles + m.jsFiles - 15) : Nat) : ℤ) else 0)
  let s4 : ℤ := s3 -
    (if 5 < m.inlineStyles then ((min 7 (m.inlineStyles - 5) : Nat) : ℤ) else 0)
  let s5 : ℤ := s4 -
    (if 5 < m.inlineScripts then ((min 8 (m.inlineScripts - 5) : Nat) : ℤ) else 0)
  let s : ℤ := max 0 (min 100 s5)
  { score := s
    rating := rating3 s
    issues :=
      (if 100000 < m.htmlSize then ["HTML file size is too large"] else []) ++
        (if 2000 < m.loadTime then ["Page load time is too slow"] else []) ++
        (if 15 < m.cssFiles + m.jsFiles then ["Too many external resources (CSS/JS files)"] else []) ++
        (if 5 < m.inlineStyles then ["Too many inline styles"] else []) ++
        (if 5 < m.inlineScripts then ["Too many inline scripts"] else []) }

/-- The subtractive `calculatePerformanceScore` of part_003 (lines 223-278):
fixed bracket deductions, clamp to [0,100], rating
`score >= 80 ? 'good' : score >= 60 ? 'fair' : 'poor'`. -/
def calculatePerformanceScoreV3 (m : PerfMetrics) : PerfScore :=
  let s1 : ℤ := 100 -
    (if 150000 < m.htmlSize then 20 else if 100000 < m.htmlSize then 10 else 0)
  let s2 : ℤ := s1 - (if 5000 < m.loadTime then 20 else if 3000 < m.loadTime then 10 else 0)
  let s3 : ℤ := s2 - (if 5 < m.cssFiles then 10 else 0)
  let s4 : ℤ := s3 - (if 10 < m.jsFiles then 10 else 0)
  let s5 : ℤ := s4 - (if 5 < m.inlineStyles then 5 else 0)
  let s6 : ℤ := s5 - (if 5 < m.inlineScripts then 5 else 0)
  let s : ℤ := max 0 (min 100 s6)
  { score := s
    rating := rating3Desc s
    issues :=
      (if 150000 < m.htmlSize then ["HTML size is too large (>150KB)"]
       else if 100000 < m.htmlSize then ["HTML size is slightly large (>100KB)"] else []) ++
        (if 5000 < m.loadTime then ["Load time is too high (>5s)"]
         else if 3000 < m.loadTime then ["Load time is slightly high (>3s)"] else []) ++
        (if 5 < m.cssFiles then ["Too many CSS files"] else []) ++
        (if 10 < m.jsFiles then ["Too many JavaScript files"] else []) ++
        (if 5 < m.inlineStyles then ["Too many inline styles"] else []) ++
        (if 5 < m.inlineScripts then ["Too many inline scripts"] else []) }

/-! ## Traffic estimate (part_004 lines 265-291; linkAnalyzer.ts lines 53-67) -/

/-- Level thresholds `trafficScore < 40 ? 'low' : trafficScore < 70 ? 'medium' : 'high'`. -/
inductive TrafficLevel where
  | low
  | medium
  | high
deriving DecidableEq, Repr

/-- The level expression applied to the clamped traffic score. -/
def trafficLevelOf (s : ℚ) : TrafficLevel :=
  if s < 40 then TrafficLevel.low
  else if s < 70 then TrafficLevel.medium
  else TrafficLevel.high

/-- Number of distinct entries of a list (a JavaScript `Set` built by
insertion, then `.size`). -/
def uniqueCount (l : List String) : Nat := l.dedup.length

/-- The part_004 traffic score (lines 269-276): content-length, unique
external domains, social links and analytics terms, each as in the source,
with the final `Math.min(100, ...)` clamp. -/
def trafficScoreV2 (contentLength uniqueExternalDomains socialCount : Nat)
    (hasAnalytics : Bool) : ℚ :=
  min 100 (min 100 ((contentLength : ℚ) / 1000) +
    min 50 ((uniqueExternalDomains : ℚ) * 2) + (socialCount : ℚ) * 10 +
    (if hasAnalytics then 30 else 0))

/-- The linkAnalyzer.ts traffic score (lines 58-65): identical shape, but the
link term is `Math.min(50, allLinks.length * 2)` where `allLinks` is every
`a[href^="http"]` element — the total link count, not unique domains. -/
def linkTrafficScore (allLinksCount contentLength socialLinks : Nat)
    (hasAnalytics : Bool) : ℚ :=
  min 100 (min 100 ((contentLength : ℚ) / 1000) +
    min 50 ((allLinksCount : ℚ) * 2) + (socialLinks : ℚ) * 10 +
    (if hasAnalytics then 30 else 0))

/-- Modelled from the spec: the traffic-estimate formula exactly as §4.2 of
the specification words it — `clamp(contentLength/1000, 0, 100) +
clamp(uniqueExternalDomains × 2, 0, 50) + socialCount × 10 + (30 if analytics
present)`, total clamped to [0,100].  Used to compare the two source variants
against the specified formula. -/
def specTrafficScore (contentLength uniqueExternalDomains socialCount : Nat)
    (hasAnalytics : Bool) : ℚ :=
  max 0 (min 100 (max 0 (min 100 ((contentLength : ℚ) / 1000)) +
    max 0 (min 50 ((uniqueExternalDomains : ℚ) * 2)) + (socialCount : ℚ) * 10 +
    (if hasAnalytics then 30 else 0)))

/-! ## Backlink counting (`analyzeLinks`, linkAnalyzer.ts lines 24-35, 69-80) -/

/-- `rel && rel.includes('nofollow')`: the attribute is truthy (present and
non-empty) and contains the substring `nofollow`. -/
def relHasNofollow : Option String → Bool
  | none => false
  | some r => !r.isEmpty && decide (1 < (r.splitOn "nofollow").length)

/-- One iteration of the `allLinks.each` loop: increment the nofollow counter
when the `rel` attribute contains `nofollow`, otherwise the dofollow counter. -/
def followStep (acc : Nat × Nat) (rel : Option String) : Nat × Nat :=
  if relHasNofollow rel then (acc.1, acc.2 + 1) else (acc.1 + 1, acc.2)

/-- The `(dofollow, nofollow)` counters after the `each` loop over the `rel`
attributes of every `a[href^="http"]` element. -/
def countFollowLoop (rels : List (Option String)) : Nat × Nat :=
  rels.foldl followStep (0, 0)

/-- The `backlinks` record returned by `analyzeLinks` (lines 70-74). -/
structure Backlinks where
  total : Nat
  dofollow : Nat
  nofollow : Nat
deriving DecidableEq, Repr

/-- `analyzeLinks`'s backlinks result as a function of the `rel` attributes of
the selected links: `total = allLinks.length` and the two loop counters. -/
def analyzeLinksBacklinks (rels : List (Option String)) : Backlinks :=
  { total := rels.length
    dofollow := (countFollowLoop rels).1
    nofollow := (countFollowLoop rels).2 }

/-! ## URL validation before fetching (`analyzeSEO`, seoAnalyzer.ts lines 8-32,
part_004 lines 62-100) -/

/-- The error message thrown when `new URL(url)` rejects the input (line 14). -/
def invalidUrlMessage : String :=
  "Invalid URL format. Please enter a valid URL including http:// or https://"

/-- A network request issued through the CORS proxy. -/
inductive NetEvent where
  | proxyGet : String → NetEvent
deriving DecidableEq, Repr

/-- Shallow model of the validation-then-fetch prefix of `analyzeSEO`
(seoAnalyzer.ts lines 8-32): the host `new URL` parser is abstracted as the
predicate `parserAccepts` and the proxy round-trip as `fetch` (returning the
fetched HTML, or `none` on failure).  The second component lists the network
requests issued.  The outer catch block (lines 200-205) prefixes every thrown
message with `SEO analysis failed: `. -/
def analyzeSEOFlow (parserAccepts : String → Bool) (fetch : String → Option String)
    (url : String) : Except String String × List NetEvent :=
  if parserAccepts url then
    match fetch url with
    | some html => (Except.ok html, [NetEvent.proxyGet url])
    | none => (Except.error ("SEO analysis failed: " ++ "Failed to fetch website content"),
        [NetEvent.proxyGet url])
  else
    (Except.error ("SEO analysis failed: " ++ invalidUrlMessage), [])

/-! ## Helper lemmas -/

theorem jsRound_nonneg {q : ℚ} (h : 0 ≤ q) : 0 ≤ jsRound q := by
  unfold jsRound
  exact Int.le_floor.mpr (by push_cast; linarith)

theorem jsRound_le {q : ℚ} {n : ℤ} (h : q ≤ (n : ℚ)) : jsRound q ≤ n := by
  unfold jsRound
  have h1 : (↑⌊q + 1 / 2⌋ : ℚ) ≤ q + 1 / 2 := Int.floor_le _
  have h2 : (↑⌊q + 1 / 2⌋ : ℚ) < (n : ℚ) + 1 := by linarith
  exact Int.lt_add_one_iff.mp (by exact_mod_cast h2)

theorem titleContribution_bounds (t : String) :
    0 ≤ (titleContribution t).1 ∧ (titleContribution t).1 ≤ 20 := by
  unfold titleContribution
  split_ifs <;> dsimp only <;> norm_num

theorem descriptionContribution_bounds (t : String) :
    0 ≤ (descriptionContribution t).1 ∧ (descriptionContribution t).1 ≤ 20 := by
  unfold descriptionContribution
  split_ifs <;> dsimp only <;> norm_num

theorem headingsContribution_bounds (h : HeadingsData) :
    0 ≤ (headingsContribution h).1 ∧ (headingsContribution h).1 ≤ 20 := by
  unfold headingsContribution
  dsimp only
  split_ifs <;> norm_num

theorem metaPoints_bounds (m : MetaTags) : 0 ≤ metaPoints m ∧ metaPoints m ≤ 20 := by
  unfold metaPoints
  split_ifs <;> norm_num

theorem imagesContribution_bounds {i : ImagesData} (h : i.withoutAlt ≤ i.total) :
    0 ≤ (imagesContribution i).1 ∧ (imagesContribution i).1 ≤ 20 := by
  unfold imagesContribution
  rcases Nat.eq_zero_or_pos i.total with hz | htot
  · rw [hz]
    norm_num
  · rw [if_pos htot]
    dsimp only
    have hT : (0 : ℚ) < (i.total : ℚ) := by exact_mod_cast htot
    have hW : ((i.withoutAlt : ℚ)) ≤ (i.total : ℚ) := by exact_mod_cast h
    have hWnn : (0 : ℚ) ≤ (i.withoutAlt : ℚ) := by positivity
    constructor
    · exact mul_nonneg (div_nonneg (by linarith) (le_of_lt hT)) (by norm_num)
    · have hfrac : ((i.total : ℚ) - (i.withoutAlt : ℚ)) / (i.total : ℚ) ≤ 1 :=
        (div_le_one hT).mpr (by linarith)
      calc ((i.total : ℚ) - (i.withoutAlt : ℚ)) / (i.total : ℚ) * 20 ≤ 1 * 20 :=
            mul_le_mul_of_nonneg_right hfrac (by norm_num)
        _ = 20 := by norm_num

theorem seoRawScore_bounds {d : SEOData} (h : d.images.withoutAlt ≤ d.images.total) :
    0 ≤ seoRawScore d ∧ seoRawScore d ≤ 100 := by
  have t := titleContribution_bounds d.title
  have de := descriptionContribution_bounds d.description
  have he := headingsContribution_bounds d.headings
  have im := imagesContribution_bounds h
  have me := metaPoints_bounds d.meta
  unfold seoRawScore
  constructor <;> linarith [t.1, t.2, de.1, de.2, he.1, he.2, im.1, im.2, me.1, me.2]

theorem scoreCheck_nonneg (c : Prop) [Decidable c] {k : ℤ} (hk : 0 ≤ k) :
    0 ≤ scoreCheck c k := by
  unfold scoreCheck
  split
  · exact hk
  · exact le_refl 0

theorem contentRawScore_nonneg (c : ContentAnalysis) (a : AccessibilityFlags) :
    0 ≤ contentRawScore c a := by
  unfold contentRawScore
  repeat' apply add_nonneg
  all_goals exact scoreCheck_nonneg _ (by norm_num)

/-- An all-empty feature record, used as a concrete evaluation point. -/
def dEmpty : SEOData :=
  { title := ""
    description := ""
    headings := { h1 := [], h2 := [], h3 := [] }
    meta := { hasViewport := false, hasCharset := false, keywords := none
              ogTags := { title := none, description := none, image := none, url := none } }
    images := { total := 0, withoutAlt := 0 } }

/-- C1: for every valid feature record (in particular `withoutAlt ≤ total`),
each of `calculateSEOScore`, `calculateContentScore` and the part_004
`calculatePerformanceScore` returns a score in [0,100]; the SEO score has no
clamp, so its bound follows from the per-check maxima 20+20+20+20+20. -/
theorem scores_within_range :
    (∀ d : SEOData, d.images.withoutAlt ≤ d.images.total →
      0 ≤ (calculateSEOScore d).score ∧ (calculateSEOScore d).score ≤ 100) ∧
    (∀ (c : ContentAnalysis) (a : AccessibilityFlags),
      0 ≤ (calculateContentScore c a).score ∧ (calculateContentScore c a).score ≤ 100) ∧
    (∀ m : PerfMetrics,
      0 ≤ (calculatePerformanceScoreV2 m).score ∧ (calculatePerformanceScoreV2 m).score ≤ 100) := by
  refine ⟨fun d h => ?_, fun c a => ?_, fun m => ?_⟩
  · have hb := seoRawScore_bounds h
    unfold calculateSEOScore
    dsimp only
    exact ⟨jsRound_nonneg hb.1, jsRound_le (by exact_mod_cast hb.2)⟩
  · unfold calculateContentScore
    dsimp only
    exact ⟨le_min (by norm_num) (contentRawScore_nonneg c a), min_le_left _ _⟩
  · unfold calculatePerformanceScoreV2
    dsimp only
    exact ⟨le_max_left _ _, max_le (by norm_num) (min_le_left _ _)⟩

/-- Witness for C1: the bound holds at the all-empty record. -/
theorem scores_within_range_witness :
    dEmpty.images.withoutAlt ≤ dEmpty.images.total ∧
      (0 ≤ (calculateSEOScore dEmpty).score ∧ (calculateSEOScore dEmpty).score ≤ 100) :=
  ⟨by decide, scores_within_range.1 dEmpty (by decide)⟩

theorem rating4_mono {q q' : ℚ} (h : q ≤ q') :
    ratingRank (rating4 q) ≤ ratingRank (rating4 q') := by
  unfold rating4
  split_ifs <;> simp [ratingRank] <;> linarith

theorem rating3_mono {s s' : ℤ} (h : s ≤ s') :
    ratingRank (rating3 s) ≤ ratingRank (rating3 s') := by
  unfold rating3
  split_ifs <;> simp [ratingRank] <;> omega

/-- C2 counterexample: under the 4-tier thresholds of the source
(`>= 80` excellent, `>= 60` good, `>= 40` fair) a score of 79 rates "good",
not "fair", and a score of 80 rates "excellent", not "good". -/
theorem rating_boundary_counterexample :
    rating4 79 ≠ Rating.fair ∧ rating4 80 ≠ Rating.good ∧
      rating4 79 = Rating.good ∧ rating4 80 = Rating.excellent := by decide

/-- C2 amended: rating is a monotone (non-decreasing) function of the score
for both threshold schemes; under the 4-tier scheme score 79 rates "good" and
80 "excellent", and under the 3-tier scheme 49 rates "poor" and 50 "fair". -/
theorem rating_monotone_thresholds :
    (∀ q q' : ℚ, q ≤ q' → ratingRank (rating4 q) ≤ ratingRank (rating4 q')) ∧
    (∀ s s' : ℤ, s ≤ s' → ratingRank (rating3 s) ≤ ratingRank (rating3 s')) ∧
    rating4 79 = Rating.good ∧ rating4 80 = Rating.excellent ∧
    rating3 49 = Rating.poor ∧ rating3 50 = Rating.fair :=
  ⟨fun _ _ h => rating4_mono h, fun _ _ h => rating3_mono h,
    by decide, by decide, by decide, by decide⟩

/-- Witness for C2: monotonicity instantiated at scores 39 and 100. -/
theorem rating_monotone_witness :
    (39 : ℚ) ≤ 100 ∧ ratingRank (rating4 39) ≤ ratingRank (rating4 100) :=
  ⟨by norm_num, rating_monotone_thresholds.1 39 100 (by norm_num)⟩

/-! ## C9: dofollow/nofollow partition -/

theorem countFollowLoop_aux (rels : List (Option String)) (a b : Nat) :
    (rels.foldl followStep (a, b)).1 + (rels.foldl followStep (a, b)).2 =
      a + b + rels.length := by
  induction rels generalizing a b with
  | nil => simp
  | cons x xs ih =>
    rw [List.foldl_cons]
    cases hx : relHasNofollow x
    · rw [show followStep (a, b) x = (a + 1, b) by simp [followStep, hx]]
      rw [ih]
      simp only [List.length_cons]
      omega
    · rw [show followStep (a, b) x = (a, b + 1) by simp [followStep, hx]]
      rw [ih]
      simp only [List.length_cons]
      omega

/-- C9: in `analyzeLinks` every selected link is counted exactly once as
dofollow or nofollow, so `dofollow + nofollow = total` for every page. -/
theorem backlinks_partition :
    ∀ rels : List (Option String),
      (analyzeLinksBacklinks rels).dofollow + (analyzeLinksBacklinks rels).nofollow =
        (analyzeLinksBacklinks rels).total := by
  intro rels
  show (countFollowLoop rels).1 + (countFollowLoop rels).2 = rels.length
  unfold countFollowLoop
  simpa using countFollowLoop_aux rels 0 0

/-! ## C10: the additive performance score never reaches 0 -/

theorem sizeScoring_pts_bounds (h : Nat) :
    10 ≤ (sizeScoring h).1 ∧ (sizeScoring h).1 ≤ 40 := by
  unfold sizeScoring
  split_ifs <;> dsimp only <;> norm_num

theorem loadTimeScoring_pts_bounds (l : Nat) :
    10 ≤ (loadTimeScoring l).1 ∧ (loadTimeScoring l).1 ≤ 40 := by
  unfold loadTimeScoring
  split_ifs <;> dsimp only <;> norm_num

/-- C10: the additive 4-tier performance variant of seoAnalyzer.ts always
scores at least 20 (its size and load-time components are each at least 10)
and at most 100, so a score of 0 is unreachable. -/
theorem perfV1_score_range :
    ∀ (h l : Nat) (fl : StructureFlags),
      20 ≤ (calculatePerformanceScoreV1 h l fl).score ∧
        (calculatePerformanceScoreV1 h l fl).score ≤ 100 ∧
        (calculatePerformanceScoreV1 h l fl).score ≠ 0 ∧
        10 ≤ (sizeScoring h).1 ∧ 10 ≤ (loadTimeScoring l).1 := by
  intro h l fl
  have hs := sizeScoring_pts_bounds h
  have hl := loadTimeScoring_pts_bounds l
  have hst1 : (0 : ℤ) ≤ min 20 ((structureCount fl : ℤ) * 3) :=
    le_min (by norm_num) (by positivity)
  have hst2 : min 20 ((structureCount fl : ℤ) * 3) ≤ 20 := min_le_left _ _
  unfold calculatePerformanceScoreV1
  dsimp only
  refine ⟨by linarith [hs.1, hl.1], by linarith [hs.2, hl.2], ?_, hs.1, hl.1⟩
  have : (20 : ℤ) ≤ (sizeScoring h).1 + (loadTimeScoring l).1 +
      min 20 ((structureCount fl : ℤ) * 3) := by linarith [hs.1, hl.1]
  omega

/-! ## C4: the worked performance example -/

/-- The metrics of Example 2 of the specification. -/
def perfExampleMetrics : PerfMetrics :=
  { htmlSize := 200000, loadTime := 6000, cssFiles := 20, jsFiles := 0
    inlineStyles := 0, inlineScripts := 0 }

/-- C4 counterexample: on htmlSize=200000, loadTime=6000, cssFiles=20 and no
inline resources the part_004 scorer does not return 35 with rating "poor":
its size penalty is `min(20, floor(200000/100000)) = 2` and its resource
penalty is `min(15, 20-15) = 5`, giving 63 and "fair"; the part_003 variant
gives 50.  Neither cited variant produces 35. -/
theorem perf_example_counterexample :
    (calculatePerformanceScoreV2 perfExampleMetrics).score ≠ 35 ∧
      (calculatePerformanceScoreV2 perfExampleMetrics).rating ≠ Rating.poor ∧
      (calculatePerformanceScoreV3 perfExampleMetrics).score ≠ 35 := by decide

/-- C4 amended: on that input the part_004 performance score equals
100 − 2 (size penalty) − 30 (load-time penalty, capped) − 5 (resource
penalty), i.e. 63, with rating "fair"; the part_003 variant yields
100 − 20 − 20 − 10 = 50 with rating "poor". -/
theorem perf_example_value :
    (calculatePerformanceScoreV2 perfExampleMetrics).score = 100 - 2 - 30 - 5 ∧
      (calculatePerformanceScoreV2 perfExampleMetrics).rating = Rating.fair ∧
      (calculatePerformanceScoreV3 perfExampleMetrics).score = 100 - 20 - 20 - 10 ∧
      (calculatePerformanceScoreV3 perfExampleMetrics).rating = Rating.poor := by decide

/-! ## C5: the traffic estimate formula -/

/-- C5 counterexample: a page carrying two `http` links to the same external
domain has `allLinks.length = 2` but only one unique external domain, and the
linkAnalyzer.ts traffic estimate (4) differs from the specified formula built
on unique external domains (2). -/
theorem traffic_formula_counterexample :
    uniqueCount ["a.com", "a.com"] = 1 ∧
      linkTrafficScore (List.length ["a.com", "a.com"]) 0 0 false = 4 ∧
      specTrafficScore 0 (uniqueCount ["a.com", "a.com"]) 0 false = 2 ∧
      linkTrafficScore (List.length ["a.com", "a.com"]) 0 0 false ≠
        specTrafficScore 0 (uniqueCount ["a.com", "a.com"]) 0 false := by
  have h1 : uniqueCount ["a.com", "a.com"] = 1 := by decide
  have h2 : linkTrafficScore (List.length ["a.com", "a.com"]) 0 0 false = 4 := by
    show linkTrafficScore 2 0 0 false = 4
    unfold linkTrafficScore
    norm_num [min_def]
  have h3 : specTrafficScore 0 (uniqueCount ["a.com", "a.com"]) 0 false = 2 := by
    rw [h1]
    unfold specTrafficScore
    norm_num [min_def, max_def]
  refine ⟨h1, h2, h3, ?_⟩
  rw [h2, h3]
  norm_num

/-- C5 amended: the part_004 traffic estimate agrees with the specified
formula (clamp(contentLength/1000,0,100) + clamp(uniqueExternalDomains×2,0,50)
+ socialCount×10 + 30 if analytics, total clamped to [0,100]) on every input,
while linkAnalyzer.ts substitutes the total `a[href^="http"]` link count for
the unique-domain count; the worked example (50000, 10, 3, analytics) scores
100 with level "high" under both variants. -/
theorem traffic_formula_amended :
    (∀ (cl ud sc : Nat) (an : Bool), trafficScoreV2 cl ud sc an = specTrafficScore cl ud sc an) ∧
      trafficScoreV2 50000 10 3 true = 100 ∧
      trafficLevelOf (trafficScoreV2 50000 10 3 true) = TrafficLevel.high ∧
      jsRound (trafficScoreV2 50000 10 3 true) = 100 ∧
      linkTrafficScore 10 50000 3 true = 100 ∧
      trafficLevelOf (linkTrafficScore 10 50000 3 true) = TrafficLevel.high := by
  have e1 : trafficScoreV2 50000 10 3 true = 100 := by
    unfold trafficScoreV2
    norm_num [min_def]
  have e2 : linkTrafficScore 10 50000 3 true = 100 := by
    unfold linkTrafficScore
    norm_num [min_def]
  have e3 : trafficLevelOf (100 : ℚ) = TrafficLevel.high := by
    unfold trafficLevelOf
    norm_num
  have e4 : jsRound (100 : ℚ) = 100 := by
    unfold jsRound
    rw [Int.floor_eq_iff]
    norm_num
  refine ⟨fun cl ud sc an => ?_, e1, by rw [e1]; exact e3, by rw [e1]; exact e4,
    e2, by rw [e2]; exact e3⟩
  unfold trafficScoreV2 specTrafficScore
  have h1 : (0 : ℚ) ≤ min 100 ((cl : ℚ) / 1000) := le_min (by norm_num) (by positivity)
  have h2 : (0 : ℚ) ≤ min 50 ((ud : ℚ) * 2) := le_min (by norm_num) (by positivity)
  have h3 : (0 : ℚ) ≤ (sc : ℚ) * 10 := by positivity
  have h4 : (0 : ℚ) ≤ (if an then (30 : ℚ) else 0) := by
    split <;> norm_num
  rw [max_eq_right h1, max_eq_right h2,
    max_eq_right (le_min (by norm_num) (by linarith))]

/-! ## C6: the title check of the SEO score -/

/-- C6: a present title of length in [30,60] contributes exactly 20 points and
no suggestion; out of range, exactly 10 points and exactly one suggestion
("Title is too short" below 30, "Title is too long" above 60); an absent
(empty) title contributes 0 points with the "Missing title tag" suggestion —
and `calculateSEOScore` is exactly the sum of these block contributions. -/
theorem title_block_contribution :
    (∀ t : String, t.isEmpty = false → 30 ≤ t.length → t.length ≤ 60 →
      titleContribution t = (20, [])) ∧
    (∀ t : String, t.isEmpty = false → t.length < 30 →
      titleContribution t = (10, ["Title is too short"])) ∧
    (∀ t : String, t.isEmpty = false → 60 < t.length →
      titleContribution t = (10, ["Title is too long"])) ∧
    (∀ t : String, t.isEmpty = true → titleContribution t = (0, ["Missing title tag"])) ∧
    (∀ d : SEOData,
      seoRawScore d = (titleContribution d.title).1 + (descriptionContribution d.description).1 +
        (headingsContribution d.headings).1 + (imagesContribution d.images).1 + metaPoints d.meta ∧
      (calculateSEOScore d).suggestions =
        (titleContribution d.title).2 ++ (descriptionContribution d.description).2 ++
          (headingsContribution d.headings).2 ++ (imagesContribution d.images).2) := by
  refine ⟨fun t he h1 h2 => ?_, fun t he h1 => ?_, fun t he h1 => ?_, fun t he => ?_,
    fun d => ⟨rfl, rfl⟩⟩
  · simp [titleContribution, he, h1, h2]
  · simp [titleContribution, he, h1, (by omega : ¬(30 ≤ t.length ∧ t.length ≤ 60))]
  · simp only [titleContribution, he, Bool.not_false, if_true]
    rw [if_neg (show ¬(30 ≤ t.length ∧ t.length ≤ 60) by omega),
      if_neg (show ¬t.length < 30 by omega)]
  · simp [titleContribution, he]

/-- A 45-character title, inside the ideal [30,60] range. -/
def titleEx : String := String.mk (List.replicate 45 'a')

/-- Witness for C6: the 45-character title earns full credit. -/
theorem title_block_witness :
    titleEx.isEmpty = false ∧ 30 ≤ titleEx.length ∧ titleEx.length ≤ 60 ∧
      titleContribution titleEx = (20, []) :=
  ⟨by decide, by decide, by decide,
    title_block_contribution.1 titleEx (by decide) (by decide) (by decide)⟩

/-! ## C7: URL validation happens before any fetch -/

/-- C7: when the URL parser rejects the input, `analyzeSEO` fails with the
descriptive invalid-URL error and issues no proxy request; when the parser
accepts it, the validation step raises no error and the flow proceeds to the
(single) proxy fetch. -/
theorem url_validation_first :
    (∀ (p : String → Bool) (f : String → Option String) (url : String), p url = false →
      (analyzeSEOFlow p f url).1 =
        Except.error ("SEO analysis failed: " ++ invalidUrlMessage) ∧
      (analyzeSEOFlow p f url).2 = []) ∧
    (∀ (p : String → Bool) (f : String → Option String) (url : String), p url = true →
      (analyzeSEOFlow p f url).2 = [NetEvent.proxyGet url] ∧
      (analyzeSEOFlow p f url).1 ≠
        Except.error ("SEO analysis failed: " ++ invalidUrlMessage)) := by
  constructor
  · intro p f url hp
    unfold analyzeSEOFlow
    rw [hp]
    exact ⟨rfl, rfl⟩
  · intro p f url hp
    unfold analyzeSEOFlow
    rw [hp]
    cases hf : f url with
    | some html => simp
    | none => simp [invalidUrlMessage]

/-- Witness for C7: a rejected input produces the invalid-URL error and an
empty request log. -/
theorem url_validation_first_witness :
    ((fun _ : String => false) "not a url" = false) ∧
      ((analyzeSEOFlow (fun _ => false) (fun _ => none) "not a url").1 =
        Except.error ("SEO analysis failed: " ++ invalidUrlMessage) ∧
       (analyzeSEOFlow (fun _ => false) (fun _ => none) "not a url").2 = []) :=
  ⟨rfl, url_validation_first.1 _ _ _ rfl⟩

/-! ## C3: suggestion counts versus failing checks -/

theorem suggCheck_length (c : Prop) [Decidable c] (msg : String) :
    (suggCheck c msg).length = if c then 0 else 1 := by
  unfold suggCheck
  split <;> rfl

/-- Number of suggestions the title block emits. -/
def titleSuggCount (t : String) : Nat :=
  if !t.isEmpty then (if 30 ≤ t.length ∧ t.length ≤ 60 then 0 else 1) else 1

/-- Number of suggestions the description block emits. -/
def descSuggCount (t : String) : Nat :=
  if !t.isEmpty then (if 120 ≤ t.length ∧ t.length ≤ 160 then 0 else 1) else 1

/-- Number of suggestions the headings block emits (only the H1 check has one). -/
def h1SuggCount (h : HeadingsData) : Nat := if h.h1.length = 1 then 0 else 1

/-- Number of suggestions the images block emits. -/
def imgSuggCount (i : ImagesData) : Nat :=
  if 0 < i.total then (if 0 < i.withoutAlt then 1 else 0) else 0

/-- Number of failing checks of `calculateSEOScore` that carry a suggestion
message; the four meta-tag checks and the H2/H3/no-image checks carry none. -/
def seoSuggCount (d : SEOData) : Nat :=
  titleSuggCount d.title + descSuggCount d.description + h1SuggCount d.headings +
    imgSuggCount d.images

theorem titleContribution_len (t : String) :
    (titleContribution t).2.length = titleSuggCount t := by
  unfold titleContribution titleSuggCount
  split
  · split <;> rfl
  · rfl

theorem descriptionContribution_len (t : String) :
    (descriptionContribution t).2.length = descSuggCount t := by
  unfold descriptionContribution descSuggCount
  split
  · split <;> rfl
  · rfl

theorem headingsContribution_len (h : HeadingsData) :
    (headingsContribution h).2.length = h1SuggCount h := by
  unfold headingsContribution h1SuggCount
  dsimp only
  split <;> rfl

theorem imagesContribution_len (i : ImagesData) :
    (imagesContribution i).2.length = imgSuggCount i := by
  unfold imagesContribution imgSuggCount
  split
  · dsimp only
    split <;> rfl
  · rfl

theorem seo_suggestions_len (d : SEOData) :
    (calculateSEOScore d).suggestions.length = seoSuggCount d := by
  unfold calculateSEOScore seoSuggCount
  dsimp only
  rw [List.length_append, List.length_append, List.length_append,
    titleContribution_len, descriptionContribution_len, headingsContribution_len,
    imagesContribution_len]

/-- Number of failing checks of `calculateContentScore`; every one of its
fourteen checks carries a suggestion message. -/
def contentFailingCount (c : ContentAnalysis) (a : AccessibilityFlags) : Nat :=
  (if 300 < c.wordCount then 0 else 1) + (if 10 < c.textToHtmlRatioPercent then 0 else 1) +
    (if c.hasSchema = true then 0 else 1) + (if c.hasCanonical = true then 0 else 1) +
    (if c.hasSitemap = true then 0 else 1) + (if c.hasSSL = true then 0 else 1) +
    (if c.mobileResponsive = true then 0 else 1) + (if c.hasFavicon = true then 0 else 1) +
    (if c.hasCustom404 = true then 0 else 1) + (if a.hasAriaLabels = true then 0 else 1) +
    (if a.hasAltText = true then 0 else 1) + (if a.hasSkipLinks = true then 0 else 1) +
    (if a.hasLangAttribute = true then 0 else 1) + (if a.hasAccessibleForms = true then 0 else 1)

theorem content_suggestions_len (c : ContentAnalysis) (a : AccessibilityFlags) :
    (calculateContentScore c a).suggestions.length = contentFailingCount c a := by
  unfold calculateContentScore contentSuggestions contentFailingCount
  dsimp only
  simp only [List.length_append, suggCheck_length]

/-- Number of suggestions the size component of the additive performance score
emits (only its two worst brackets push one). -/
def sizeSuggCount (h : Nat) : Nat := if h < 200 * 1024 then 0 else 1

/-- Number of suggestions the load-time component emits. -/
def loadSuggCount (l : Nat) : Nat := if l < 2000 then 0 else 1

/-- Number of failing checks of the additive performance score that carry a
suggestion; the structure component carries none. -/
def perfV1SuggCount (h l : Nat) : Nat := sizeSuggCount h + loadSuggCount l

theorem sizeScoring_len (h : Nat) : (sizeScoring h).2.length = sizeSuggCount h := by
  unfold sizeScoring sizeSuggCount
  split_ifs <;> first | rfl | (exfalso; omega)

theorem loadTimeScoring_len (l : Nat) : (loadTimeScoring l).2.length = loadSuggCount l := by
  unfold loadTimeScoring loadSuggCount
  split_ifs <;> first | rfl | (exfalso; omega)

theorem perfV1_suggestions_len (h l : Nat) (fl : StructureFlags) :
    (calculatePerformanceScoreV1 h l fl).suggestions.length = perfV1SuggCount h l := by
  unfold calculatePerformanceScoreV1 perfV1SuggCount
  dsimp only
  rw [List.length_append, sizeScoring_len, loadTimeScoring_len]

/-- Every check of `calculateSEOScore` earns its full credit. -/
def seoAllChecksPass (d : SEOData) : Prop :=
  d.title.isEmpty = false ∧ 30 ≤ d.title.length ∧ d.title.length ≤ 60 ∧
    d.description.isEmpty = false ∧ 120 ≤ d.description.length ∧ d.description.length ≤ 160 ∧
    d.headings.h1.length = 1 ∧ 0 < d.headings.h2.length ∧ 0 < d.headings.h3.length ∧
    0 < d.images.total ∧ d.images.withoutAlt = 0 ∧
    d.meta.hasViewport = true ∧ d.meta.hasCharset = true ∧
    jsTruthy d.meta.keywords = true ∧ ogAny d.meta.ogTags = true

/-- Modelled from the spec: the number of failing checks of
`calculateSEOScore` as the specification counts them — one per check that
does not earn its full credit, including the meta-tag checks (viewport,
charset, keywords, Open Graph), which the code never turns into suggestions. -/
def seoFailingCheckCount (d : SEOData) : Nat :=
  (if d.title.isEmpty = false ∧ 30 ≤ d.title.length ∧ d.title.length ≤ 60 then 0 else 1) +
    (if d.description.isEmpty = false ∧ 120 ≤ d.description.length ∧ d.description.length ≤ 160
      then 0 else 1) +
    (if d.headings.h1.length = 1 then 0 else 1) +
    (if 0 < d.headings.h2.length then 0 else 1) +
    (if 0 < d.headings.h3.length then 0 else 1) +
    (if 0 < d.images.total ∧ d.images.withoutAlt = 0 then 0 else 1) +
    (if d.meta.hasViewport = true then 0 else 1) +
    (if d.meta.hasCharset = true then 0 else 1) +
    (if jsTruthy d.meta.keywords = true then 0 else 1) +
    (if ogAny d.meta.ogTags = true then 0 else 1)

/-- A feature record passing every check of `calculateSEOScore`. -/
def dPassAll : SEOData :=
  { title := String.mk (List.replicate 45 'a')
    description := String.mk (List.replicate 140 'b')
    headings := { h1 := ["h"], h2 := ["h"], h3 := ["h"] }
    meta := { hasViewport := true, hasCharset := true, keywords := some "seo"
              ogTags := { title := some "t", description := none, image := none, url := none } }
    images := { total := 1, withoutAlt := 0 } }

/-- The record of `dPassAll` with the viewport meta tag missing. -/
def dViewportFail : SEOData :=
  { title := String.mk (List.replicate 45 'a')
    description := String.mk (List.replicate 140 'b')
    headings := { h1 := ["h"], h2 := ["h"], h3 := ["h"] }
    meta := { hasViewport := false, hasCharset := true, keywords := some "seo"
              ogTags := { title := some "t", description := none, image := none, url := none } }
    images := { total := 1, withoutAlt := 0 } }

instance seoAllChecksPassDecidable (d : SEOData) : Decidable (seoAllChecksPass d) := by
  unfold seoAllChecksPass
  infer_instance

set_option maxRecDepth 10000 in
/-- C3 counterexample: a record failing only the viewport meta-tag check has
one failing check but an empty suggestions list, because the meta-tag checks
of `calculateSEOScore` never push suggestions. -/
theorem suggestion_counts_counterexample :
    dViewportFail.meta.hasViewport = false ∧
      seoFailingCheckCount dViewportFail = 1 ∧
      (calculateSEOScore dViewportFail).suggestions = [] ∧
      (calculateSEOScore dViewportFail).suggestions.length ≠
        seoFailingCheckCount dViewportFail := by decide

/-- C3 amended: the suggestions list length equals the number of failing
checks that carry a suggestion message: all fourteen checks of
`calculateContentScore`, the title/description/H1/missing-alt checks of
`calculateSEOScore` (its meta-tag, H2, H3 and no-image checks emit none), and
the size/load-time components of the additive performance score (its
structure component emits none); a record passing every check still yields an
empty suggestions list. -/
theorem suggestion_counts :
    (∀ (c : ContentAnalysis) (a : AccessibilityFlags),
      (calculateContentScore c a).suggestions.length = contentFailingCount c a) ∧
    (∀ d : SEOData, (calculateSEOScore d).suggestions.length = seoSuggCount d) ∧
    (∀ (h l : Nat) (fl : StructureFlags),
      (calculatePerformanceScoreV1 h l fl).suggestions.length = perfV1SuggCount h l) ∧
    (∀ d : SEOData, seoAllChecksPass d → (calculateSEOScore d).suggestions = []) := by
  refine ⟨content_suggestions_len, seo_suggestions_len, perfV1_suggestions_len, fun d hp => ?_⟩
  obtain ⟨h1, h2, h3, h4, h5, h6, h7, h8, h9, h10, h11, _⟩ := hp
  have hz : seoSuggCount d = 0 := by
    unfold seoSuggCount titleSuggCount descSuggCount h1SuggCount imgSuggCount
    simp [h1, h2, h3, h4, h5, h6, h7, h10, h11]
  exact List.length_eq_zero.mp ((seo_suggestions_len d).trans hz)

set_option maxRecDepth 10000 in
/-- Witness for C3: the all-pass record yields an empty suggestions list. -/
theorem suggestion_counts_witness :
    seoAllChecksPass dPassAll ∧ (calculateSEOScore dPassAll).suggestions = [] :=
  ⟨by decide, suggestion_counts.2.2.2 dPassAll (by decide)⟩

/-! ## C8: pages without images cap at an SEO score of 80 -/

/-- A record passing every non-image check, with no images at all. -/
def dNoImages : SEOData :=
  { title := String.mk (List.replicate 45 'a')
    description := String.mk (List.replicate 140 'b')
    headings := { h1 := ["h"], h2 := ["h"], h3 := ["h"] }
    meta := { hasViewport := true, hasCharset := true, keywords := some "seo"
              ogTags := { title := some "t", description := none, image := none, url := none } }
    images := { total := 0, withoutAlt := 0 } }

set_option maxRecDepth 10000 in
/-- C8: when `images.total = 0` the image block contributes 0 points and no
suggestion, so the SEO score of a page with no images is at most 80 — and 80
is attained when every other check passes. -/
theorem seo_no_images_cap :
    (∀ d : SEOData, d.images.total = 0 →
      imagesContribution d.images = (0, []) ∧ (calculateSEOScore d).score ≤ 80) ∧
      dNoImages.images.total = 0 ∧ (calculateSEOScore dNoImages).score = 80 := by
  have hex : (calculateSEOScore dNoImages).score = 80 := by
    have ht : titleContribution dNoImages.title = (20, []) := by
      unfold titleContribution
      rw [if_pos (show (!dNoImages.title.isEmpty) = true by decide),
        if_pos (show 30 ≤ dNoImages.title.length ∧ dNoImages.title.length ≤ 60 by decide)]
    have hd : descriptionContribution dNoImages.description = (20, []) := by
      unfold descriptionContribution
      rw [if_pos (show (!dNoImages.description.isEmpty) = true by decide),
        if_pos (show 120 ≤ dNoImages.description.length ∧ dNoImages.description.length ≤ 160
          by decide)]
    have hh : headingsContribution dNoImages.headings = (20, []) := by
      norm_num [headingsContribution, dNoImages]
    have hi : imagesContribution dNoImages.images = (0, []) := by
      norm_num [imagesContribution, dNoImages]
    have hk : jsTruthy (some "seo") = true := by decide
    have hog : ogAny { title := some "t", description := none, image := none, url := none } = true := by decide
    have hm : metaPoints dNoImages.meta = 20 := by
      norm_num [metaPoints, dNoImages, hk, hog]
    have hraw : seoRawScore dNoImages = 80 := by
      unfold seoRawScore
      rw [ht, hd, hh, hi, hm]
      norm_num
    show jsRound (seoRawScore dNoImages) = 80
    rw [hraw]
    unfold jsRound
    rw [Int.floor_eq_iff]
    norm_num
  refine ⟨fun d h0 => ?_, rfl, hex⟩
  have himg : imagesContribution d.images = (0, []) := by
    unfold imagesContribution
    rw [h0]
    norm_num
  refine ⟨himg, ?_⟩
  have t := (titleContribution_bounds d.title).2
  have de := (descriptionContribution_bounds d.description).2
  have he := (headingsContribution_bounds d.headings).2
  have me := (metaPoints_bounds d.meta).2
  have hz : (imagesContribution d.images).1 = 0 := by rw [himg]
  have hraw : seoRawScore d ≤ 80 := by
    unfold seoRawScore
    rw [hz]
    linarith
  unfold calculateSEOScore
  dsimp only
  exact jsRound_le (by exact_mod_cast hraw)

/-- Witness for C8: instantiated at the imageless all-pass record. -/
theorem seo_no_images_cap_witness :
    dNoImages.images.total = 0 ∧
      (imagesContribution dNoImages.images = (0, []) ∧
        (calculateSEOScore dNoImages).score ≤ 80) :=
  ⟨rfl, seo_no_images_cap.1 dNoImages rfl⟩

end SeoAnalyzer
